import Mathlib

/-!
Verification of the async-state tracker (`useAsync`) and the grid helpers
(`updateGridState`, `updateGridCellState`) from `src/src/utils.js`, as a
shallow embedding in Lean 4.

Modelling decisions, stated once here:
* A tracker's observable state is `{status, data, error}`; `data` and
  `error` hold arbitrary JS values, modelled by `Option V` where `none`
  stands for JS `null` and `some v` for a proper value of type `V`.
* `useReducer`'s reducer `(s, a) => ({...s, ...a})` merges a partial
  update into the state; a partial update is modelled by `StateUpdate`
  with one `Option` per field (`none` = field absent from the action).
* `useSafeDispatch` gates every dispatch behind the `mounted` ref, set
  true on mount (layout effect) and false on unmount (its cleanup).
* `run` is split along its synchronous/asynchronous boundary:
  `runSync` is everything `run` does before returning (the guard throw,
  the pending dispatch, the `.then` call, which itself throws a
  TypeError when `then` is not callable), and `runSettle` is what
  happens when the awaited promise settles (one of the two registered
  continuations fires, and the promise returned by `.then` acquires its
  outcome from the continuation's result, per JS promise semantics).
* JS numbers in the grid are modelled by `ℚ`; each `Math.random()` call
  is one value drawn from an explicit random source (a single `ℚ` when
  at most one draw happens, a stream `ℕ → ℚ` when the number of draws
  depends on the drawn values), assumed to lie in `[0, 1)`.
-/

namespace ReactPerf

/-- Observable async state: `status`, `data`, `error`
(`src/src/utils.js` line 22 and the reducer state at line 33). -/
structure AsyncState (V : Type) where
  status : String
  data : Option V
  error : Option V
deriving DecidableEq, Repr

/-- A partial state update, one field per property that a dispatch may
carry; `none` means the property is absent from the action object. -/
structure StateUpdate (V : Type) where
  status? : Option String := none
  data? : Option (Option V) := none
  error? : Option (Option V) := none
deriving DecidableEq, Repr

variable {V : Type}

/-- `const defaultInitialState = {status: 'idle', data: null, error: null}`
(line 22). -/
def defaultInitialState : AsyncState V :=
  { status := "idle", data := none, error := none }

/-- The reducer `(s, a) => ({...s, ...a})` (line 36): fields present in
the action override the state, absent fields are left untouched. -/
def reducer (s : AsyncState V) (a : StateUpdate V) : AsyncState V :=
  { status := a.status?.getD s.status
    data := a.data?.getD s.data
    error := a.error?.getD s.error }

/-- An action carrying every field, as `initialStateRef.current` does
when `reset` dispatches it (line 82). -/
def fullUpdate (s : AsyncState V) : StateUpdate V :=
  { status? := some s.status, data? := some s.data, error? := some s.error }

/-- The tracker: the `mounted` ref of `useSafeDispatch` (line 6), the
reducer state (line 33), and `initialStateRef.current` (line 28). -/
structure Tracker (V : Type) where
  mounted : Bool
  state : AsyncState V
  initialStateRef : AsyncState V
deriving DecidableEq, Repr

/-- `{...defaultInitialState, ...initialState}` (lines 28-31): the
caller's overrides merged over the defaults. -/
def mkInitialState (init : StateUpdate V) : AsyncState V :=
  reducer defaultInitialState init

/-- Construction of the tracker by `useAsync(initialState)` (line 26):
the initial-state ref is captured once, the reducer starts from it, and
`mounted` starts false (set true by the layout effect on mount). -/
def useAsyncInit (init : StateUpdate V) : Tracker V :=
  { mounted := false
    state := mkInitialState init
    initialStateRef := mkInitialState init }

/-- `useSafeDispatch` (lines 11-14): the dispatch runs only while
`mounted.current` is true, otherwise it is `void 0`, a no-op. -/
def safeSetState (tr : Tracker V) (a : StateUpdate V) : Tracker V :=
  if tr.mounted then { tr with state := reducer tr.state a } else tr

/-- `isIdle: status === 'idle'` (line 88). -/
def isIdle (s : AsyncState V) : Bool := s.status == "idle"

/-- `isLoading: status === 'pending'` (line 89). -/
def isLoading (s : AsyncState V) : Bool := s.status == "pending"

/-- `isError: status === 'rejected'` (line 90). -/
def isError (s : AsyncState V) : Bool := s.status == "rejected"

/-- `isSuccess: status === 'resolved'` (line 91). -/
def isSuccess (s : AsyncState V) : Bool := s.status == "resolved"

/-- How many of the four derived flags are true. -/
def trueFlagCount (s : AsyncState V) : Nat :=
  (cond (isIdle s) 1 0) + (cond (isLoading s) 1 0) +
    (cond (isError s) 1 0) + (cond (isSuccess s) 1 0)

/-- The argument passed to `run`, reduced to the three observations the
synchronous body of `run` makes of it: its own truthiness (`!promise`),
the truthiness of its `then` property (`!promise.then`), and whether
`then` is callable (`promise.then(...)` throws a TypeError otherwise). -/
structure JSArg where
  truthy : Bool
  thenTruthy : Bool
  thenCallable : Bool
deriving DecidableEq, Repr

/-- A genuine awaitable: a truthy value whose `then` property is a
function (functions are truthy). -/
def isAwaitable (p : JSArg) : Bool := p.truthy && p.thenTruthy && p.thenCallable

/-- Outcome of a settled promise: fulfilled with a value or rejected
with a reason (either may be the JS `null`, hence `Option V`). -/
inductive Outcome (V : Type) where
  | fulfilled (v : Option V)
  | rejected (e : Option V)
deriving DecidableEq, Repr

/-- What a `.then` continuation does when it fires: return normally or
throw. Both continuations registered by `run` return normally. -/
inductive HandlerResult (V : Type) where
  | ret (v : Option V)
  | thr (e : Option V)
deriving DecidableEq, Repr

/-- JS promise semantics for the promise returned by `.then`: a handler
returning normally fulfills it, a handler throwing rejects it. -/
def outcomeOfResult : HandlerResult V → Outcome V
  | .ret v => Outcome.fulfilled v
  | .thr e => Outcome.rejected e

/-- `promise.then(onFulfilled, onRejected)` observed at settlement time:
the handler matching the input's outcome fires (possibly updating the
tracker), and the returned promise's outcome comes from its result. -/
def promiseThen (o : Outcome V)
    (onFulfilled : Option V → Tracker V → HandlerResult V × Tracker V)
    (onRejected : Option V → Tracker V → HandlerResult V × Tracker V)
    (tr : Tracker V) : Outcome V × Tracker V :=
  match o with
  | .fulfilled v =>
      let r := onFulfilled v tr
      (outcomeOfResult r.1, r.2)
  | .rejected e =>
      let r := onRejected e tr
      (outcomeOfResult r.1, r.2)

/-- The message of the synchronous guard error (lines 47-49). -/
def invalidArgumentMessage : String :=
  "The argument passed to useAsync().run must be a promise"

/-- The TypeError raised when `promise.then(...)` is invoked on a value
whose `then` property is truthy but not callable. -/
def thenNotCallableMessage : String :=
  "TypeError: promise.then is not a function"

/-- The synchronous body of `run` (lines 45-54): the guard throws when
the argument is falsy or its `then` property is falsy; otherwise the
pending dispatch fires, then `.then` is invoked (throwing a TypeError
when `then` is not callable). Result: the tracker afterwards, plus
`ok` or the thrown error's message. -/
def runSync (tr : Tracker V) (p : JSArg) : Tracker V × Except String Unit :=
  if !p.truthy || !p.thenTruthy then
    (tr, Except.error invalidArgumentMessage)
  else
    let tr₁ := safeSetState tr { status? := some "pending" }
    if p.thenCallable then (tr₁, Except.ok ())
    else (tr₁, Except.error thenNotCallableMessage)

/-- The success continuation (lines 55-58): dispatch
`{data, status: 'resolved'}` and return `data`. -/
def runOnFulfilled (d : Option V) (tr : Tracker V) : HandlerResult V × Tracker V :=
  (HandlerResult.ret d, safeSetState tr { data? := some d, status? := some "resolved" })

/-- The failure continuation (lines 59-62): dispatch
`{status: 'rejected', error}` and return `error` (a normal return, not
a rethrow). -/
def runOnRejected (e : Option V) (tr : Tracker V) : HandlerResult V × Tracker V :=
  (HandlerResult.ret e, safeSetState tr { status? := some "rejected", error? := some e })

/-- The asynchronous part of `run` (lines 54-63): the awaited promise
settles with outcome `o`, the matching continuation fires, and the
promise `run` returned acquires its outcome. -/
def runSettle (tr : Tracker V) (o : Outcome V) : Outcome V × Tracker V :=
  promiseThen o runOnFulfilled runOnRejected tr

/-- An observable interaction with the tracker. `mount`/`unmount` are
the layout effect and its cleanup; `runStart` is the synchronous part of
a `run` call on a genuine awaitable; `settleResolved`/`settleRejected`
are the continuations of a previously started `run` firing; the rest
are the exposed callbacks (lines 71-84). -/
inductive Event (V : Type) where
  | mount
  | unmount
  | runStart
  | settleResolved (v : Option V)
  | settleRejected (e : Option V)
  | setData (v : Option V)
  | setError (e : Option V)
  | reset
deriving DecidableEq, Repr

/-- One step of the tracker under an event, each case being the
corresponding dispatch from the source. -/
def step (tr : Tracker V) (e : Event V) : Tracker V :=
  match e with
  | .mount => { tr with mounted := true }
  | .unmount => { tr with mounted := false }
  | .runStart => (runSync tr { truthy := true, thenTruthy := true, thenCallable := true }).1
  | .settleResolved v => (runOnFulfilled v tr).2
  | .settleRejected e => (runOnRejected e tr).2
  | .setData v => safeSetState tr { data? := some v }
  | .setError e => safeSetState tr { error? := some e }
  | .reset => safeSetState tr (fullUpdate tr.initialStateRef)

/-- A whole interaction history applied in order. -/
def applyEvents (tr : Tracker V) (es : List (Event V)) : Tracker V :=
  es.foldl step tr

/-- The four status strings the tracker's own dispatches can install. -/
def statusWF (s : AsyncState V) : Prop :=
  s.status = "idle" ∨ s.status = "pending" ∨
    s.status = "rejected" ∨ s.status = "resolved"

/-- Invariant carried through the induction for the flag theorem: both
the live state and the captured initial snapshot have a status among
the four machine states. -/
def trackerWF (tr : Tracker V) : Prop :=
  statusWF tr.state ∧ statusWF tr.initialStateRef

theorem safeSetState_mounted (tr : Tracker V) (a : StateUpdate V)
    (h : tr.mounted = true) :
    safeSetState tr a = { tr with state := reducer tr.state a } := by
  simp [safeSetState, h]

theorem safeSetState_unmounted (tr : Tracker V) (a : StateUpdate V)
    (h : tr.mounted = false) :
    safeSetState tr a = tr := by
  simp [safeSetState, h]

theorem safeSetState_initialStateRef (tr : Tracker V) (a : StateUpdate V) :
    (safeSetState tr a).initialStateRef = tr.initialStateRef := by
  unfold safeSetState
  split <;> rfl

theorem step_initialStateRef (tr : Tracker V) (e : Event V) :
    (step tr e).initialStateRef = tr.initialStateRef := by
  cases e <;>
    simp [step, runSync, runOnFulfilled, runOnRejected,
      safeSetState_initialStateRef]

theorem applyEvents_initialStateRef (tr : Tracker V) (es : List (Event V)) :
    (applyEvents tr es).initialStateRef = tr.initialStateRef := by
  induction es generalizing tr with
  | nil => rfl
  | cons e es ih =>
      simpa [applyEvents, step_initialStateRef] using
        (ih (step tr e)).trans (step_initialStateRef tr e)

theorem statusWF_reducer (s : AsyncState V) (a : StateUpdate V)
    (hs : statusWF s)
    (ha : a.status? = none ∨ a.status? = some "idle" ∨ a.status? = some "pending" ∨
      a.status? = some "rejected" ∨ a.status? = some "resolved") :
    statusWF (reducer s a) := by
  rcases ha with h | h | h | h | h
  · simpa [reducer, statusWF, h] using hs
  all_goals simp [reducer, statusWF, h]

theorem statusWF_safeSetState (tr : Tracker V) (a : StateUpdate V)
    (hs : statusWF tr.state)
    (ha : a.status? = none ∨ a.status? = some "idle" ∨ a.status? = some "pending" ∨
      a.status? = some "rejected" ∨ a.status? = some "resolved") :
    statusWF (safeSetState tr a).state := by
  unfold safeSetState
  split
  · exact statusWF_reducer tr.state a hs ha
  · exact hs

theorem trackerWF_step (tr : Tracker V) (e : Event V) (h : trackerWF tr) :
    trackerWF (step tr e) := by
  obtain ⟨hs, hi⟩ := h
  refine ⟨?_, (step_initialStateRef tr e) ▸ hi⟩
  cases e with
  | mount => exact hs
  | unmount => exact hs
  | runStart =>
      simpa [step, runSync] using
        statusWF_safeSetState tr { status? := some "pending" } hs (by simp)
  | settleResolved v =>
      simpa [step, runOnFulfilled] using
        statusWF_safeSetState tr { data? := some v, status? := some "resolved" } hs (by simp)
  | settleRejected e =>
      simpa [step, runOnRejected] using
        statusWF_safeSetState tr { status? := some "rejected", error? := some e } hs (by simp)
  | setData v =>
      exact statusWF_safeSetState tr { data? := some v } hs (by simp)
  | setError e =>
      exact statusWF_safeSetState tr { error? := some e } hs (by simp)
  | reset =>
      refine statusWF_safeSetState tr (fullUpdate tr.initialStateRef) hs ?_
      rcases hi with h | h | h | h <;> simp [fullUpdate, h]

theorem trackerWF_applyEvents (tr : Tracker V) (es : List (Event V))
    (h : trackerWF tr) : trackerWF (applyEvents tr es) := by
  induction es generalizing tr with
  | nil => exact h
  | cons e es ih => exact ih (step tr e) (trackerWF_step tr e h)

theorem trueFlagCount_of_statusWF (s : AsyncState V) (h : statusWF s) :
    trueFlagCount s = 1 := by
  rcases h with h | h | h | h <;>
    simp [trueFlagCount, isIdle, isLoading, isError, isSuccess, h]

/-- C1: starting from the default initial state, after any sequence of
tracker events, exactly one of the four derived flags is true, and each
flag holds exactly when `status` has the corresponding value. -/
theorem useAsync_flags_exactly_one (V : Type) (es : List (Event V)) :
    trueFlagCount (applyEvents (useAsyncInit {}) es).state = 1 ∧
    (isIdle (applyEvents (useAsyncInit {}) es).state = true ↔
      (applyEvents (useAsyncInit {}) es).state.status = "idle") ∧
    (isLoading (applyEvents (useAsyncInit {}) es).state = true ↔
      (applyEvents (useAsyncInit {}) es).state.status = "pending") ∧
    (isError (applyEvents (useAsyncInit {}) es).state = true ↔
      (applyEvents (useAsyncInit {}) es).state.status = "rejected") ∧
    (isSuccess (applyEvents (useAsyncInit {}) es).state = true ↔
      (applyEvents (useAsyncInit {}) es).state.status = "resolved") := by
  have hwf : trackerWF (useAsyncInit ({} : StateUpdate V)) := by
    constructor <;> simp [useAsyncInit, mkInitialState, reducer,
      defaultInitialState, statusWF]
  have h := trackerWF_applyEvents (useAsyncInit {}) es hwf
  refine ⟨trueFlagCount_of_statusWF _ h.1, ?_, ?_, ?_, ?_⟩ <;>
    simp [isIdle, isLoading, isError, isSuccess]

/-- A concrete mounted tracker with the default initial state, for
witnesses: `useAsync()` followed by the mount effect. -/
def sampleMounted : Tracker Nat := step (useAsyncInit {}) Event.mount

/-- A concrete detached tracker: mounted, a `run` accepted, then the
owning view torn down while the operation is still pending. -/
def sampleDetached : Tracker Nat :=
  applyEvents (useAsyncInit {}) [Event.mount, Event.runStart, Event.unmount]

/-- A genuine promise as `run` observes it. -/
def promiseLikeArg : JSArg :=
  { truthy := true, thenTruthy := true, thenCallable := true }

/-- A truthy value whose `then` property is truthy but not callable
(e.g. `{then: 1}`): not an awaitable, yet it passes `run`'s guard. -/
def truthyThenNotCallable : JSArg :=
  { truthy := true, thenTruthy := true, thenCallable := false }

/-- C2: while the tracker stays attached, a `run` whose awaitable
fulfills with X leaves the state at status `resolved` with `data = X`,
and one whose awaitable rejects with E leaves it at status `rejected`
with `error = E`; the rejection is recorded in state by a continuation
that returns normally, not rethrown. -/
theorem run_settles_to_outcome (V : Type) (tr : Tracker V) (p : JSArg)
    (hm : tr.mounted = true) (hp : isAwaitable p = true) (v e : Option V) :
    ((runSettle (runSync tr p).1 (Outcome.fulfilled v)).2.state.status = "resolved" ∧
      (runSettle (runSync tr p).1 (Outcome.fulfilled v)).2.state.data = v) ∧
    ((runSettle (runSync tr p).1 (Outcome.rejected e)).2.state.status = "rejected" ∧
      (runSettle (runSync tr p).1 (Outcome.rejected e)).2.state.error = e) := by
  have hp' : (p.truthy = true ∧ p.thenTruthy = true) ∧ p.thenCallable = true := by
    simpa [isAwaitable, Bool.and_eq_true] using hp
  obtain ⟨⟨ht, htt⟩, htc⟩ := hp'
  simp [runSync, runSettle, promiseThen, runOnFulfilled, runOnRejected,
    outcomeOfResult, safeSetState, reducer, hm, ht, htt, htc]

theorem run_settles_to_outcome_witness :
    ((runSettle (runSync sampleMounted promiseLikeArg).1
        (Outcome.fulfilled (some 3))).2.state.status = "resolved" ∧
      (runSettle (runSync sampleMounted promiseLikeArg).1
        (Outcome.fulfilled (some 3))).2.state.data = some 3) ∧
    ((runSettle (runSync sampleMounted promiseLikeArg).1
        (Outcome.rejected (some 4))).2.state.status = "rejected" ∧
      (runSettle (runSync sampleMounted promiseLikeArg).1
        (Outcome.rejected (some 4))).2.state.error = some 4) :=
  run_settles_to_outcome Nat sampleMounted promiseLikeArg rfl rfl (some 3) (some 4)

/-- C3 counterexample: a truthy argument with a truthy but non-callable
`then` is not an awaitable, and `run` does throw synchronously on it
(the TypeError from invoking `then`), but only after the state has
already moved from `idle` to `pending`: the status is not what it was
before the call, refuting the claim that no state change precedes the
throw for every non-awaitable argument. -/
theorem run_nonawaitable_cex :
    isAwaitable truthyThenNotCallable = false ∧
    (runSync sampleMounted truthyThenNotCallable).2 =
      Except.error thenNotCallableMessage ∧
    ¬(runSync sampleMounted truthyThenNotCallable).1.state.status =
      sampleMounted.state.status := by
  refine ⟨rfl, rfl, ?_⟩
  decide

/-- C3 (amended): for every argument rejected by `run`'s guard (a falsy
value, or one whose `then` property is falsy), `run` throws the
`InvalidArgument` error synchronously before performing any state
change: status, data and error are exactly what they were. (A truthy
non-awaitable whose `then` is truthy but not callable instead throws
only after the transition to `pending`.) -/
theorem run_guard_throws_before_state_change (V : Type) (tr : Tracker V)
    (p : JSArg) (h : p.truthy = false ∨ p.thenTruthy = false) :
    (runSync tr p).2 = Except.error invalidArgumentMessage ∧
    (runSync tr p).1.state.status = tr.state.status ∧
    (runSync tr p).1.state.data = tr.state.data ∧
    (runSync tr p).1.state.error = tr.state.error := by
  rcases h with h | h <;> simp [runSync, h]

theorem run_guard_throws_before_state_change_witness :
    (runSync sampleMounted { truthy := false, thenTruthy := false, thenCallable := false }).2 =
      Except.error invalidArgumentMessage ∧
    (runSync sampleMounted { truthy := false, thenTruthy := false, thenCallable := false }).1.state.status =
      sampleMounted.state.status ∧
    (runSync sampleMounted { truthy := false, thenTruthy := false, thenCallable := false }).1.state.data =
      sampleMounted.state.data ∧
    (runSync sampleMounted { truthy := false, thenTruthy := false, thenCallable := false }).1.state.error =
      sampleMounted.state.error :=
  run_guard_throws_before_state_change Nat sampleMounted
    { truthy := false, thenTruthy := false, thenCallable := false } (Or.inl rfl)

/-- C4 counterexample: when the awaitable passed to `run` rejects with
reason 5, the promise `run` returned does not reject with 5 — it
fulfills with 5, because the failure continuation returns the reason
normally. -/
theorem run_forwarding_cex :
    ¬(runSettle sampleMounted (Outcome.rejected (some 5))).1 =
        Outcome.rejected (some 5) ∧
    (runSettle sampleMounted (Outcome.rejected (some 5))).1 =
      Outcome.fulfilled (some 5) := by
  exact ⟨by decide, rfl⟩

/-- C4 (amended): the awaitable returned by `run` forwards the outcome
value but converts rejection into fulfillment: it fulfills with X when
the input fulfills with X, and it also fulfills with E (rather than
rejecting) when the input rejects with E, because both continuations
return their argument normally. -/
theorem run_forwarding_amended (V : Type) (tr : Tracker V) (v e : Option V) :
    (runSettle tr (Outcome.fulfilled v)).1 = Outcome.fulfilled v ∧
    (runSettle tr (Outcome.rejected e)).1 = Outcome.fulfilled e :=
  ⟨rfl, rfl⟩

/-- C5: once the liveness flag is false (the owning view detached),
every gated dispatch is a no-op, the settlement of an operation started
before detach leaves the tracker exactly as it was, and every event
other than re-mounting leaves the tracker unchanged. -/
theorem unmounted_dispatch_noop (V : Type) (tr : Tracker V)
    (h : tr.mounted = false) :
    (∀ a, safeSetState tr a = tr) ∧
    (∀ o : Outcome V, (runSettle tr o).2 = tr) ∧
    (∀ e : Event V, ¬e = Event.mount → step tr e = tr) := by
  refine ⟨fun a => safeSetState_unmounted tr a h, ?_, ?_⟩
  · intro o
    cases o <;>
      simp [runSettle, promiseThen, runOnFulfilled, runOnRejected,
        safeSetState_unmounted, h]
  · intro e he
    cases tr
    cases e <;>
      simp_all [step, runSync, runOnFulfilled, runOnRejected, safeSetState]

theorem unmounted_dispatch_noop_witness :
    safeSetState sampleDetached { data? := some (some 1) } = sampleDetached ∧
    (runSettle sampleDetached (Outcome.fulfilled (some 2))).2 = sampleDetached :=
  ⟨(unmounted_dispatch_noop Nat sampleDetached rfl).1 _,
    (unmounted_dispatch_noop Nat sampleDetached rfl).2.1 _⟩

/-- C6: whatever events have happened since construction, a `reset`
issued while the tracker is attached restores the state to exactly the
constructor-time snapshot — the defaults merged with the caller's
overrides — not to the default constant. -/
theorem reset_restores_initial_snapshot (V : Type) (init : StateUpdate V)
    (es : List (Event V))
    (hm : (applyEvents (useAsyncInit init) es).mounted = true) :
    (step (applyEvents (useAsyncInit init) es) Event.reset).state =
      reducer defaultInitialState init := by
  have href : (applyEvents (useAsyncInit init) es).initialStateRef =
      mkInitialState init := by
    simpa [useAsyncInit] using applyEvents_initialStateRef (useAsyncInit init) es
  simp [step, safeSetState, hm, href, mkInitialState, reducer, fullUpdate]

theorem reset_restores_initial_snapshot_witness :
    (step (applyEvents (useAsyncInit { data? := some (some 7) })
        [Event.mount, Event.runStart, Event.settleRejected (some 9)])
      Event.reset).state =
      reducer defaultInitialState ({ data? := some (some 7) } : StateUpdate Nat) :=
  reset_restores_initial_snapshot Nat { data? := some (some 7) }
    [Event.mount, Event.runStart, Event.settleRejected (some 9)] rfl

/-- C7: each dispatch is a partial merge leaving unnamed fields alone:
the pending transition changes neither data nor error, a resolution
keeps the previously stored error, a rejection keeps the previously
stored data, and setData / setError change exactly their own field,
never the status. -/
theorem dispatch_partial_merge (V : Type) (tr : Tracker V)
    (hm : tr.mounted = true) :
    ((step tr Event.runStart).state.status = "pending" ∧
      (step tr Event.runStart).state.data = tr.state.data ∧
      (step tr Event.runStart).state.error = tr.state.error) ∧
    (∀ v, (step tr (Event.settleResolved v)).state.status = "resolved" ∧
      (step tr (Event.settleResolved v)).state.data = v ∧
      (step tr (Event.settleResolved v)).state.error = tr.state.error) ∧
    (∀ e, (step tr (Event.settleRejected e)).state.status = "rejected" ∧
      (step tr (Event.settleRejected e)).state.error = e ∧
      (step tr (Event.settleRejected e)).state.data = tr.state.data) ∧
    (∀ v, (step tr (Event.setData v)).state.data = v ∧
      (step tr (Event.setData v)).state.status = tr.state.status ∧
      (step tr (Event.setData v)).state.error = tr.state.error) ∧
    (∀ e, (step tr (Event.setError e)).state.error = e ∧
      (step tr (Event.setError e)).state.status = tr.state.status ∧
      (step tr (Event.setError e)).state.data = tr.state.data) := by
  simp [step, runSync, runOnFulfilled, runOnRejected, safeSetState, reducer, hm]

theorem dispatch_partial_merge_witness :
    (step sampleMounted (Event.setData (some 4))).state.data = some 4 ∧
    (step sampleMounted (Event.setData (some 4))).state.status =
      sampleMounted.state.status ∧
    (step sampleMounted (Event.setData (some 4))).state.error =
      sampleMounted.state.error :=
  (dispatch_partial_merge Nat sampleMounted rfl).2.2.2.1 (some 4)

/-- C10: `run`'s guard throws exactly on arguments that are falsy or
whose `then` property is falsy; any argument with a truthy `then` —
callable or not — passes the guard without the synchronous guard error,
and (while mounted) the state transitions to `pending`. -/
theorem run_guard_exact (V : Type) (tr : Tracker V) (p : JSArg) :
    ((runSync tr p).2 = Except.error invalidArgumentMessage ↔
      (p.truthy = false ∨ p.thenTruthy = false)) ∧
    (p.truthy = true → p.thenTruthy = true → tr.mounted = true →
      (runSync tr p).1.state.status = "pending") := by
  obtain ⟨t, tt, tc⟩ := p
  cases t <;> cases tt <;> cases tc <;>
    simp [runSync, safeSetState, reducer, invalidArgumentMessage,
      thenNotCallableMessage] <;>
    intro hm <;> simp [hm]

theorem run_guard_exact_witness :
    (runSync sampleMounted truthyThenNotCallable).1.state.status = "pending" :=
  (run_guard_exact Nat sampleMounted truthyThenNotCallable).2 rfl rfl rfl

/-! Grid helpers (`updateGridState`, lines 217-221, and
`updateGridCellState`, lines 223-241). Cells are `ℚ`; each call to
`Math.random()` is one draw from an explicit random source. -/

/-- The inner `cells.map` of `updateGridCellState` (lines 229-237),
with the running cell index made explicit: the cell whose index equals
`column` becomes `r * 100` (the one `Math.random() * 100` call), every
other cell is returned unchanged. -/
def updateCells (r : ℚ) (column : Int) : Nat → List ℚ → List ℚ
  | _, [] => []
  | cI, cell :: rest =>
      (if (cI : Int) = column then r * 100 else cell) ::
        updateCells r column (cI + 1) rest

/-- The outer `grid.map` of `updateGridCellState` (lines 225-240): the
row whose index equals `row` is mapped by `updateCells`, every other
row is returned unchanged. -/
def updateRows (r : ℚ) (row column : Int) : Nat → List (List ℚ) → List (List ℚ)
  | _, [] => []
  | rI, cells :: rest =>
      (if (rI : Int) = row then updateCells r column 0 cells else cells) ::
        updateRows r row column (rI + 1) rest

/-- `updateGridCellState(grid, {row, column})` (lines 223-241), with the
single random draw `r` passed explicitly. -/
def updateGridCellState (r : ℚ) (grid : List (List ℚ)) (row column : Int) :
    List (List ℚ) :=
  updateRows r row column 0 grid

/-- The cell of a grid at row `i`, column `j`, when both are in range. -/
def cellAt (grid : List (List ℚ)) (i j : Nat) : Option ℚ :=
  grid[i]?.bind fun cells => cells[j]?

/-- Both coordinates denote an existing cell of the grid: the row index
is within the grid and the column index within that row. -/
def coordsInRange (grid : List (List ℚ)) (row column : Int) : Prop :=
  0 ≤ row ∧ row < grid.length ∧ 0 ≤ column ∧
    column < (grid[row.toNat]?.getD []).length

instance (grid : List (List ℚ)) (row column : Int) :
    Decidable (coordsInRange grid row column) := by
  unfold coordsInRange
  infer_instance

theorem updateCells_length (r : ℚ) (c : Int) (k : Nat) (xs : List ℚ) :
    (updateCells r c k xs).length = xs.length := by
  induction xs generalizing k with
  | nil => rfl
  | cons x rest ih => simp [updateCells, ih]

theorem updateCells_getElem? (r : ℚ) (c : Int) (xs : List ℚ) (k i : Nat) :
    (updateCells r c k xs)[i]? =
      (xs[i]?).map fun cell => if ((k + i : Nat) : Int) = c then r * 100 else cell := by
  induction xs generalizing k i with
  | nil => simp [updateCells]
  | cons x rest ih =>
      cases i with
      | zero => simp [updateCells]
      | succ n =>
          have hk : k + 1 + n = k + (n + 1) := by omega
          simp only [updateCells, List.getElem?_cons_succ, ih (k + 1) n, hk]

theorem updateCells_eq_self (r : ℚ) (c : Int) (k : Nat) (xs : List ℚ)
    (h : ∀ j < xs.length, ¬((k + j : Nat) : Int) = c) :
    updateCells r c k xs = xs := by
  induction xs generalizing k with
  | nil => rfl
  | cons x rest ih =>
      have h0 : ¬(k : Int) = c := by
        have := h 0 (by simp)
        simpa using this
      have hrest : updateCells r c (k + 1) rest = rest := by
        refine ih (k + 1) fun j hj => ?_
        have := h (j + 1) (by simpa using Nat.succ_lt_succ hj)
        have he : k + 1 + j = k + (j + 1) := by omega
        simpa [he] using this
      simp [updateCells, h0, hrest]

theorem updateRows_length (r : ℚ) (row c : Int) (k : Nat) (g : List (List ℚ)) :
    (updateRows r row c k g).length = g.length := by
  induction g generalizing k with
  | nil => rfl
  | cons cells rest ih => simp [updateRows, ih]

theorem updateRows_getElem? (r : ℚ) (row c : Int) (g : List (List ℚ)) (k i : Nat) :
    (updateRows r row c k g)[i]? =
      (g[i]?).map fun cells =>
        if ((k + i : Nat) : Int) = row then updateCells r c 0 cells else cells := by
  induction g generalizing k i with
  | nil => simp [updateRows]
  | cons cells rest ih =>
      cases i with
      | zero => simp [updateRows]
      | succ n =>
          have hk : k + 1 + n = k + (n + 1) := by omega
          simp only [updateRows, List.getElem?_cons_succ, ih (k + 1) n, hk]

theorem mul_hundred_bounds (r : ℚ) (h0 : 0 ≤ r) (h1 : r < 1) :
    0 ≤ r * 100 ∧ r * 100 < 100 := by
  constructor
  · positivity
  · nlinarith

/-- C8: with the random draw in `[0, 1)`, `updateGridCellState` keeps
the grid's shape, leaves every cell other than `(row, column)`
numerically identical to the input, replaces the cell at
`(row, column)` — when both coordinates are in range — with a value in
`[0, 100)`, and returns the input grid unchanged (with no error) when
the coordinates are out of range. -/
theorem updateGridCellState_spec (r : ℚ) (grid : List (List ℚ))
    (row column : Int) (hr : 0 ≤ r ∧ r < 1) :
    (updateGridCellState r grid row column).length = grid.length ∧
    (∀ i : Nat, ((updateGridCellState r grid row column)[i]?).map List.length =
      (grid[i]?).map List.length) ∧
    (∀ i j : Nat, ¬((i : Int) = row ∧ (j : Int) = column) →
      cellAt (updateGridCellState r grid row column) i j = cellAt grid i j) ∧
    (∀ i j : Nat, (i : Int) = row → (j : Int) = column →
      ∀ cells, grid[i]? = some cells → j < cells.length →
      cellAt (updateGridCellState r grid row column) i j = some (r * 100) ∧
        0 ≤ r * 100 ∧ r * 100 < 100) ∧
    (¬coordsInRange grid row column → updateGridCellState r grid row column = grid) := by
  obtain ⟨hr0, hr1⟩ := hr
  refine ⟨updateRows_length r row column 0 grid, ?_, ?_, ?_, ?_⟩
  · intro i
    rw [updateGridCellState, updateRows_getElem?]
    cases hgi : grid[i]? with
    | none => rfl
    | some cells =>
        simp only [Option.map_some']
        split <;> simp [updateCells_length]
  · intro i j hne
    rw [cellAt, cellAt, updateGridCellState, updateRows_getElem?]
    cases hgi : grid[i]? with
    | none => rfl
    | some cells =>
        simp only [Option.map_some', Option.some_bind]
        by_cases hi : ((0 + i : Nat) : Int) = row
        · have hj : ¬(j : Int) = column := by
            intro hj
            exact hne ⟨by simpa using hi, hj⟩
          rw [if_pos hi, updateCells_getElem?]
          cases hcj : cells[j]? with
          | none => rfl
          | some cell => simp [hj]
        · rw [if_neg hi]
  · intro i j hi hj cells hgi hjlt
    refine ⟨?_, mul_hundred_bounds r hr0 hr1⟩
    rw [cellAt, updateGridCellState, updateRows_getElem?, hgi]
    simp only [Option.map_some', Option.some_bind]
    rw [if_pos (by simpa using hi), updateCells_getElem?]
    obtain ⟨cell, hcell⟩ : ∃ a, cells[j]? = some a :=
      ⟨cells[j], List.getElem?_eq_getElem hjlt⟩
    simp [hcell, hj]
  · intro hout
    refine List.ext_getElem? fun i => ?_
    rw [updateGridCellState, updateRows_getElem?]
    cases hgi : grid[i]? with
    | none => rfl
    | some cells =>
        simp only [Option.map_some']
        by_cases hi : ((0 + i : Nat) : Int) = row
        · rw [if_pos hi]
          have hi' : (i : Int) = row := by simpa using hi
          have hilen : i < grid.length := (List.getElem?_eq_some.mp hgi).1
          have hrow0 : 0 ≤ row := by omega
          have hrowlen : row < (grid.length : Int) := by
            omega
          have hitn : row.toNat = i := by omega
          have hgetd : (grid[row.toNat]?.getD []).length = cells.length := by
            rw [hitn, hgi]
            rfl
          have hcol : ¬(0 ≤ column ∧ column < (cells.length : Int)) := by
            intro ⟨hc0, hc1⟩
            exact hout ⟨hrow0, hrowlen, hc0, by omega⟩
          have : updateCells r column 0 cells = cells := by
            refine updateCells_eq_self r column 0 cells fun j hjlt => ?_
            intro hje
            have hj0 : (0 : Int) ≤ column := by
              have : ((0 + j : Nat) : Int) = column := hje
              omega
            have hj1 : column < (cells.length : Int) := by
              have : ((0 + j : Nat) : Int) = column := hje
              omega
            exact hcol ⟨hj0, hj1⟩
          rw [this]
        · rw [if_neg hi]

theorem updateGridCellState_spec_witness :
    cellAt (updateGridCellState (1/2) [[1, 2], [3, 4]] 0 1) 0 1 =
      some ((1/2 : ℚ) * 100) ∧
    0 ≤ (1/2 : ℚ) * 100 ∧ (1/2 : ℚ) * 100 < 100 :=
  (updateGridCellState_spec (1/2) [[1, 2], [3, 4]] 0 1
      (by norm_num)).2.2.2.1 0 1 rfl rfl [1, 2] rfl (by norm_num)

/-- The inner `row.map` of `updateGridState` (line 219), threading the
random source: for each cell one draw decides (`> 0.7`) whether the cell
is replaced, and on replacement a second draw supplies the fresh value
(`Math.random() * 100`). Returns the new row and the next unused draw
index. -/
def updateCellsAll (rng : Nat → ℚ) : Nat → List ℚ → List ℚ × Nat
  | k, [] => ([], k)
  | k, cell :: rest =>
      if rng k > 7 / 10 then
        let t := updateCellsAll rng (k + 2) rest
        (rng (k + 1) * 100 :: t.1, t.2)
      else
        let t := updateCellsAll rng (k + 1) rest
        (cell :: t.1, t.2)

/-- The outer `grid.map` of `updateGridState` (line 218), threading the
random source row by row. -/
def updateRowsAll (rng : Nat → ℚ) : Nat → List (List ℚ) → List (List ℚ) × Nat
  | k, [] => ([], k)
  | k, cells :: rest =>
      let c := updateCellsAll rng k cells
      let t := updateRowsAll rng c.2 rest
      (c.1 :: t.1, t.2)

/-- `updateGridState(grid)` (lines 217-221), with the random source made
an explicit stream of draws consumed in evaluation order. -/
def updateGridState (rng : Nat → ℚ) (grid : List (List ℚ)) : List (List ℚ) :=
  (updateRowsAll rng 0 grid).1

theorem updateCellsAll_length (rng : Nat → ℚ) (k : Nat) (xs : List ℚ) :
    (updateCellsAll rng k xs).1.length = xs.length := by
  induction xs generalizing k with
  | nil => rfl
  | cons x rest ih =>
      rw [updateCellsAll]
      split <;> simp [ih]

theorem updateCellsAll_cell (rng : Nat → ℚ) (hr : ∀ n, 0 ≤ rng n ∧ rng n < 1)
    (xs : List ℚ) (k j : Nat) :
    (updateCellsAll rng k xs).1[j]? = xs[j]? ∨
      ∃ q, (updateCellsAll rng k xs).1[j]? = some q ∧ 0 ≤ q ∧ q < 100 := by
  induction xs generalizing k j with
  | nil => left; rfl
  | cons x rest ih =>
      by_cases h : rng k > 7 / 10
      · cases j with
        | zero =>
            right
            refine ⟨rng (k + 1) * 100, ?_,
              mul_hundred_bounds (rng (k + 1)) (hr (k + 1)).1 (hr (k + 1)).2⟩
            simp [updateCellsAll, h]
        | succ n => simpa [updateCellsAll, h] using ih (k + 2) n
      · cases j with
        | zero =>
            left
            simp [updateCellsAll, h]
        | succ n => simpa [updateCellsAll, h] using ih (k + 1) n

theorem updateRowsAll_length (rng : Nat → ℚ) (k : Nat) (g : List (List ℚ)) :
    (updateRowsAll rng k g).1.length = g.length := by
  induction g generalizing k with
  | nil => rfl
  | cons cells rest ih => simp [updateRowsAll, ih]

theorem updateRowsAll_rowLength (rng : Nat → ℚ) (k i : Nat) (g : List (List ℚ)) :
    ((updateRowsAll rng k g).1[i]?).map List.length = (g[i]?).map List.length := by
  induction g generalizing k i with
  | nil => rfl
  | cons cells rest ih =>
      cases i with
      | zero => simp [updateRowsAll, updateCellsAll_length]
      | succ n =>
          simpa [updateRowsAll] using ih (updateCellsAll rng k cells).2 n

theorem updateRowsAll_cell (rng : Nat → ℚ) (hr : ∀ n, 0 ≤ rng n ∧ rng n < 1)
    (g : List (List ℚ)) (k i j : Nat) :
    ((updateRowsAll rng k g).1[i]?.bind fun cells => cells[j]?) =
        (g[i]?.bind fun cells => cells[j]?) ∨
      ∃ q, ((updateRowsAll rng k g).1[i]?.bind fun cells => cells[j]?) =
        some q ∧ 0 ≤ q ∧ q < 100 := by
  induction g generalizing k i with
  | nil => left; rfl
  | cons cells rest ih =>
      cases i with
      | zero =>
          simpa [updateRowsAll] using updateCellsAll_cell rng hr cells k j
      | succ n =>
          simpa [updateRowsAll] using ih (updateCellsAll rng k cells).2 n

/-- C9: with every draw of the random source in `[0, 1)`,
`updateGridState` keeps the grid's shape, and every cell of the result
is either numerically identical to the corresponding input cell or a
fresh value in `[0, 100)` — no value outside `[0, 100)` is ever
introduced; and the result is a deterministic function of the seeded
source: sources agreeing on every draw give equal grids. -/
theorem updateGridState_spec (rng : Nat → ℚ) (grid : List (List ℚ))
    (hr : ∀ n, 0 ≤ rng n ∧ rng n < 1) :
    (updateGridState rng grid).length = grid.length ∧
    (∀ i : Nat, ((updateGridState rng grid)[i]?).map List.length =
      (grid[i]?).map List.length) ∧
    (∀ i j : Nat, cellAt (updateGridState rng grid) i j = cellAt grid i j ∨
      ∃ q, cellAt (updateGridState rng grid) i j = some q ∧ 0 ≤ q ∧ q < 100) ∧
    (∀ rng2 : Nat → ℚ, (∀ n, rng n = rng2 n) →
      updateGridState rng grid = updateGridState rng2 grid) := by
  refine ⟨updateRowsAll_length rng 0 grid,
    fun i => updateRowsAll_rowLength rng 0 i grid,
    fun i j => updateRowsAll_cell rng hr grid 0 i j,
    fun rng2 h2 => ?_⟩
  rw [funext h2]

theorem updateGridState_spec_witness :
    (updateGridState (fun _ => 1/2) [[1, 2], [3, 4]]).length =
      ([[1, 2], [3, 4]] : List (List ℚ)).length ∧
    ((updateGridState (fun _ => 1/2) [[1, 2], [3, 4]])[0]?).map List.length =
      (([[1, 2], [3, 4]] : List (List ℚ))[0]?).map List.length :=
  ⟨(updateGridState_spec (fun _ => 1/2) [[1, 2], [3, 4]]
      (fun n => by norm_num)).1,
    (updateGridState_spec (fun _ => 1/2) [[1, 2], [3, 4]]
      (fun n => by norm_num)).2.1 0⟩

end ReactPerf
